import Mathlib

/-!
Shallow embedding of the confession-bot core (`src/main.py`): the Supabase
tables (`confessions`, `comments`, `votes`, `reports`) become lists of rows,
and each `db_*` helper and handler body becomes a pure function on that state.
Transport sends are modelled by an explicit success/failure argument at the
one call site whose result feeds back into the store.
-/

/-- Row of the `confessions` table: `id`, `user_id`, `text`, `is_approved`,
and the channel message id stored once published (`channel_msg_id`). -/
structure Confession where
  id : Nat
  user_id : String
  text : String
  is_approved : Bool
  channel_msg_id : Option Nat
deriving DecidableEq

/-- Row of the `comments` table: `id`, `confession_id`, optional
`parent_comment_id` (none = top-level), `user_id`, `username`, `text`. -/
structure Comment where
  id : Nat
  confession_id : Nat
  parent_comment_id : Option Nat
  user_id : String
  username : String
  text : String
deriving DecidableEq

/-- Row of the `votes` table: composite key (`user_id`, `comment_id`) plus
the direction `vote` (1 or -1). -/
structure Vote where
  user_id : String
  comment_id : Nat
  vote : Int
deriving DecidableEq

/-- Row of the `reports` table: `comment_id`, `user_id`, `reason`. The code
reuses the `reason` column as status, overwriting it with "resolved" or
"dismissed". -/
structure Report where
  comment_id : Nat
  user_id : String
  reason : String
deriving DecidableEq

/-- The persistent store: the four tables the core handlers touch. -/
structure DB where
  confessions : List Confession
  comments : List Comment
  votes : List Vote
  reports : List Report
deriving DecidableEq

/-- `db_get_confession`: select the first row of `confessions` with this id. -/
def db_get_confession (db : DB) (conf_id : Nat) : Option Confession :=
  db.confessions.find? (fun c => c.id = conf_id)

/-- `db_set_confession_published`: update the row with this id, setting
`is_approved := true` and storing the channel message id. -/
def db_set_confession_published (db : DB) (conf_id : Nat) (channel_msg_id : Nat) : DB :=
  { db with confessions := db.confessions.map (fun c =>
      if c.id = conf_id then { c with is_approved := true, channel_msg_id := some channel_msg_id } else c) }

/-- `db_set_confession_rejected`: update the row with this id, setting
`is_approved := false`. -/
def db_set_confession_rejected (db : DB) (conf_id : Nat) : DB :=
  { db with confessions := db.confessions.map (fun c =>
      if c.id = conf_id then { c with is_approved := false } else c) }

/-- `db_add_comment`: insert a comment row (no parent in the payload, so
`parent_comment_id = none`); the id the store assigns is passed in. -/
def db_add_comment (db : DB) (new_id : Nat) (confession_id : Nat)
    (user_id username text : String) : DB :=
  { db with comments := db.comments ++
      [{ id := new_id, confession_id := confession_id, parent_comment_id := none,
         user_id := user_id, username := username, text := text }] }

/-- Ordered insertion by ascending comment id (ties keep earlier rows
first), used to model the store's `order("id", desc=False)`. -/
def insertById (c : Comment) : List Comment → List Comment
  | [] => [c]
  | d :: ds => if c.id ≤ d.id then c :: d :: ds else d :: insertById c ds

/-- Insertion sort by ascending comment id. -/
def sortById : List Comment → List Comment
  | [] => []
  | c :: cs => insertById c (sortById cs)

/-- `db_get_comments`: rows of `comments` with this `confession_id`, ordered
by `id` ascending. -/
def db_get_comments (db : DB) (confession_id : Nat) : List Comment :=
  sortById (db.comments.filter (fun c => c.confession_id = confession_id))

/-- `db_count_comments`: exact count of ALL rows of `comments` with this
`confession_id` (replies included — there is no parent filter). -/
def db_count_comments (db : DB) (confession_id : Nat) : Nat :=
  (db.comments.filter (fun c => c.confession_id = confession_id)).length

/-- `db_delete_comment`: delete the target comment, then its direct replies,
then its vote rows, and overwrite the `reason` of its reports with
"resolved". -/
def db_delete_comment (db : DB) (comment_id : Nat) : DB :=
  { db with
    comments := ((db.comments.filter (fun c => ¬ c.id = comment_id)).filter
      (fun c => ¬ c.parent_comment_id = some comment_id)),
    votes := db.votes.filter (fun v => ¬ v.comment_id = comment_id),
    reports := db.reports.map (fun r =>
      if r.comment_id = comment_id then { r with reason := "resolved" } else r) }

/-- `db_upsert_vote`: upsert on the (`user_id`, `comment_id`) key — update
the matching row's `vote` if one exists, insert a fresh row otherwise. -/
def db_upsert_vote (db : DB) (user_id : String) (comment_id : Nat) (vote_value : Int) : DB :=
  if db.votes.any (fun v => v.user_id = user_id ∧ v.comment_id = comment_id) then
    { db with votes := db.votes.map (fun v =>
        if v.user_id = user_id ∧ v.comment_id = comment_id then { v with vote := vote_value } else v) }
  else
    { db with votes := db.votes ++ [{ user_id := user_id, comment_id := comment_id, vote := vote_value }] }

/-- `db_delete_vote`: delete the rows of `votes` keyed by this
(`user_id`, `comment_id`) pair. -/
def db_delete_vote (db : DB) (user_id : String) (comment_id : Nat) : DB :=
  { db with votes := db.votes.filter (fun v => ¬ (v.user_id = user_id ∧ v.comment_id = comment_id)) }

/-- `db_get_vote_counts`: (number of vote rows on the comment with value 1,
number with value -1). -/
def db_get_vote_counts (db : DB) (comment_id : Nat) : Nat × Nat :=
  ((db.votes.filter (fun v => v.comment_id = comment_id ∧ v.vote = 1)).length,
   (db.votes.filter (fun v => v.comment_id = comment_id ∧ v.vote = -1)).length)

/-- `db_add_report`: if a report row for this (`comment_id`, `user_id`) pair
already exists — whatever its `reason` — return `false` and leave the store
alone; otherwise insert one row and return `true`. -/
def db_add_report (db : DB) (comment_id : Nat) (reporting_user_id reason : String) :
    Bool × DB :=
  if db.reports.any (fun r => r.comment_id = comment_id ∧ r.user_id = reporting_user_id) then
    (false, db)
  else
    (true, { db with reports := db.reports ++
      [{ comment_id := comment_id, user_id := reporting_user_id, reason := reason }] })

/-- Core of `vote_cb`: look up the voter's existing row on the comment; same
direction deletes it (toggle-off), different direction or no row upserts the
wanted value. `vtype` is the callback's direction string ("up" or "dw"). -/
def vote_cb (db : DB) (user_id : String) (c_id : Nat) (vtype : String) : DB :=
  let want : Int := if vtype = "up" then 1 else -1
  match db.votes.filter (fun v => v.comment_id = c_id ∧ v.user_id = user_id) with
  | cur :: _ => if cur.vote = want then db_delete_vote db user_id c_id
                else db_upsert_vote db user_id c_id want
  | [] => db_upsert_vote db user_id c_id want

/-- `vote_cb` applied to a whole list of (voter, comment, direction) events in
order, as a webhook would deliver them. -/
def vote_cb_seq (db : DB) (ops : List (String × Nat × String)) : DB :=
  ops.foldl (fun d op => vote_cb d op.1 op.2.1 op.2.2) db

/-- Inline channel-markup update shared by `handle_message` and
`admin_delete_comment_cb`: if the confession exists and carries a
`channel_msg_id`, the button is re-rendered with `db_count_comments`; the
value returned is the count the public post now displays (`none` = no edit
issued). -/
def sync_count (db : DB) (conf_id : Nat) : Option Nat :=
  match db_get_confession db conf_id with
  | some conf =>
    match conf.channel_msg_id with
    | some _ => some (db_count_comments db conf_id)
    | none => none
  | none => none

/-- Comment branch of `handle_message` (state carries `active_conf_id`): the
text becomes a new top-level comment via `db_add_comment`, then the channel
button is re-rendered with the fresh count. Returns the new store and the
displayed count. -/
def handle_message_comment (db : DB) (conf_id : Nat) (new_id : Nat)
    (user_id username text : String) : DB × Option Nat :=
  let db2 := db_add_comment db new_id conf_id user_id username text
  (db2, sync_count db2 conf_id)

/-- `handle_reply`: the reply flow inserts a comment row WITH
`parent_comment_id` set; note it performs no channel-markup update. -/
def handle_reply (db : DB) (new_id : Nat) (conf_id : Nat) (parent_id : Nat)
    (user_id username text : String) : DB :=
  { db with comments := db.comments ++
      [{ id := new_id, confession_id := conf_id, parent_comment_id := some parent_id,
         user_id := user_id, username := username, text := text }] }

/-- `admin_delete_comment_cb`: delete the comment (cascading as
`db_delete_comment` does), then re-render the channel button for the owning
confession with the fresh count. -/
def admin_delete_comment_cb (db : DB) (c_id conf_id : Nat) : DB × Option Nat :=
  let db2 := db_delete_comment db c_id
  (db2, sync_count db2 conf_id)

/-- `admin_dismiss_report_cb`: overwrite the `reason` of every report on the
comment with "dismissed" (the comment itself is untouched). -/
def admin_dismiss_report_cb (db : DB) (c_id : Nat) : DB :=
  { db with reports := db.reports.map (fun r =>
      if r.comment_id = c_id then { r with reason := "dismissed" } else r) }

/-- Outcome `reason_cb` surfaces after `db_add_report`: duplicate rejection
or an accepted report (which then notifies the admin group). -/
inductive ReportOutcome
  | duplicate
  | accepted
deriving DecidableEq

/-- Report-submission core of `reason_cb`: file the report via
`db_add_report`; `false` surfaces "You already reported this comment". -/
def reason_cb (db : DB) (c_id : Nat) (user_id reason : String) : DB × ReportOutcome :=
  let r := db_add_report db c_id user_id reason
  (r.2, if r.1 then ReportOutcome.accepted else ReportOutcome.duplicate)

/-- What `admin_review_cb` reports back to the moderator. -/
inductive DecideOutcome
  | rejected
  | published (msg_id : Nat)
  | publishFailed
deriving DecidableEq

/-- Store-effect core of `admin_review_cb`. `action` is "approve" or
"reject" from the callback data. The transport send that publishes to the
channel is modelled by `sendResult`: `some msg_id` if the send succeeded,
`none` if it raised. Reject updates the row and reports `rejected`;
approve persists `published` state only when the send succeeded, and on
failure leaves the store untouched and surfaces the failure. -/
def admin_review_cb (db : DB) (action : String) (conf_id : Nat)
    (sendResult : Option Nat) : DB × DecideOutcome :=
  if action = "reject" then
    (db_set_confession_rejected db conf_id, DecideOutcome.rejected)
  else
    match sendResult with
    | some msg_id =>
      (db_set_confession_published db conf_id msg_id, DecideOutcome.published msg_id)
    | none => (db, DecideOutcome.publishFailed)

/-- Everything `browse_cb` computes for one page: the clamped page number,
the page's top-level comments, the top-level total and the page count. -/
structure PageView where
  page : Nat
  items : List Comment
  total : Nat
  total_pages : Nat
deriving DecidableEq

/-- Pagination core of `browse_cb`, with the page size abstracted (the code
fixes `per_page = 10`): top-level comments only, `total_pages =
max 1 ⌈total / per_page⌉`, the requested page clamped into
`[1, total_pages]`, and the corresponding slice. The requested page is an
integer, as `int(page_s)` can produce any value. -/
def browse_page (db : DB) (conf_id : Nat) (page : Int) (per_page : Nat) : PageView :=
  let comments := db_get_comments db conf_id
  let top_level := comments.filter (fun c => c.parent_comment_id = none)
  let total := top_level.length
  let total_pages := max 1 ((total + per_page - 1) / per_page)
  let page1 := (max 1 (min page (total_pages : Int))).toNat
  let start := (page1 - 1) * per_page
  { page := page1, items := (top_level.drop start).take per_page,
    total := total, total_pages := total_pages }

/-- `browse_cb` as the source runs it, with its hard-coded page size 10. -/
def browse_cb (db : DB) (conf_id : Nat) (page : Int) : PageView :=
  browse_page db conf_id page 10

/-- Decimal digit character, as Python's str() renders one digit. -/
def digitChar (d : Nat) : Char := Char.ofNat (48 + d)

/-- Digit-emission loop for decimal rendering, structurally recursive on a
fuel bound so that it reduces by computation; `fuel > n` suffices. -/
def natToDigitsAux : Nat → Nat → List Char
  | 0, _ => []
  | fuel + 1, n =>
    if n < 10 then [digitChar n]
    else natToDigitsAux fuel (n / 10) ++ [digitChar (n % 10)]

/-- Decimal rendering of a natural number, modelling Python's
`f"{conf_id}"` / `str(int)`. -/
def natToDigits (n : Nat) : List Char := natToDigitsAux (n + 1) n

/-- The digit value of a character, if it is one of '0'..'9'. -/
def charDigit? (c : Char) : Option Nat :=
  if 48 ≤ c.toNat ∧ c.toNat ≤ 57 then some (c.toNat - 48) else none

/-- Left-to-right accumulation of decimal digits; any non-digit character
makes the parse fail, as Python's `int()` raises ValueError. -/
def parseNatAux : List Char → Nat → Option Nat
  | [], acc => some acc
  | c :: cs, acc =>
    match charDigit? c with
    | some d => parseNatAux cs (10 * acc + d)
    | none => none

/-- Model of Python's `int(s)` on the digit strings this code produces:
empty input raises, otherwise the digits accumulate. -/
def parseNat (cs : List Char) : Option Nat :=
  if cs = [] then none else parseNatAux cs 0

/-- Everything after the FIRST underscore of the string, i.e. Python's
`payload.split("_", 1)[1]` when an underscore is present. -/
def afterFirstUnderscore : List Char → List Char
  | [] => []
  | c :: cs => if c = '_' then cs else afterFirstUnderscore cs

/-- The deep-link start payload `build_channel_markup` embeds in the public
post's URL: `conf_{conf_id}`. -/
def deep_link_payload (conf_id : Nat) : List Char :=
  'c' :: 'o' :: 'n' :: 'f' :: '_' :: natToDigits conf_id

/-- Payload decoding in `cmd_start`: if the payload starts with `conf_`,
parse the part after the first underscore with `int()`; a parse failure or
missing prefix yields no confession id. -/
def cmd_start_payload (payload : List Char) : Option Nat :=
  if payload.take 5 = ['c', 'o', 'n', 'f', '_'] then
    parseNat (afterFirstUnderscore payload)
  else none

/-- The single-vote invariant: no two rows of the `votes` table share the
(`user_id`, `comment_id`) key. -/
def vote_key_unique (votes : List Vote) : Prop :=
  votes.Pairwise (fun a b => ¬(a.user_id = b.user_id ∧ a.comment_id = b.comment_id))

/-- Number of top-level comments of a confession, as `browse_cb` counts
them: rows of `db_get_comments` with no parent. -/
def top_level_count (db : DB) (conf_id : Nat) : Nat :=
  ((db_get_comments db conf_id).filter (fun c => c.parent_comment_id = none)).length

/-- Number of replies of a confession: rows of `db_get_comments` with a
parent. -/
def reply_count (db : DB) (conf_id : Nat) : Nat :=
  ((db_get_comments db conf_id).filter (fun c => ¬ c.parent_comment_id = none)).length

/-- Fixture: a store holding one pending confession and nothing else. -/
def pendingDB : DB := ⟨[⟨1, "a", "hello", false, none⟩], [], [], []⟩

/-- Fixture: `pendingDB` after a first successful approval that stored
channel message id 100. -/
def publishedDB : DB := (admin_review_cb pendingDB "approve" 1 (some 100)).1

/-- Fixture: a store whose only vote row is a dislike by voter "u" on
comment 1. -/
def dislikeDB : DB := ⟨[], [], [⟨"u", 1, -1⟩], []⟩

/-- Fixture: a published confession (channel message 50) with one top-level
comment (id 1), one reply (id 2) to it, votes on both, and two reports on
the top-level comment, one of them already dismissed. -/
def engagedDB : DB :=
  ⟨[⟨1, "a", "t", true, some 50⟩],
   [⟨1, 1, none, "u", "un", "c1"⟩, ⟨2, 1, some 1, "v", "vn", "r1"⟩],
   [⟨"w", 2, 1⟩, ⟨"w", 1, 1⟩],
   [⟨1, "x", "Spam"⟩, ⟨1, "y", "dismissed"⟩]⟩

/-- Fixture: a published confession with 25 top-level comments, for
pagination checks. -/
def manyCommentsDB : DB :=
  ⟨[⟨1, "a", "t", true, some 50⟩],
   (List.range 25).map (fun i => ⟨i + 1, 1, none, "u", "un", "c"⟩), [], []⟩

/-- Looking a confession up after `db_set_confession_published` yields the
stored row with `is_approved` set and the message id recorded. -/
theorem db_get_confession_set_published (db : DB) (i m : Nat) :
    db_get_confession (db_set_confession_published db i m) i =
      (db_get_confession db i).map
        (fun c => { c with is_approved := true, channel_msg_id := some m }) := by
  unfold db_get_confession db_set_confession_published
  induction db.confessions with
  | nil => rfl
  | cons c cs ih =>
    by_cases h : c.id = i
    · simp [List.find?_cons, h]
    · simp only [List.map_cons]
      rw [if_neg h, List.find?_cons_of_neg _ (by simp [h]),
        List.find?_cons_of_neg _ (by simp [h])]
      exact ih

/-- C3: if the channel send fails, approving leaves the store untouched
(the submission stays pending, no public-post reference appears) and the
failure is surfaced; on a successful send the row is persisted as published
with the returned message id. -/
theorem admin_review_cb_publish_two_phase (db : DB) (conf_id : Nat) (conf : Confession)
    (m : Nat) (h : db_get_confession db conf_id = some conf) :
    (admin_review_cb db "approve" conf_id none).1 = db
    ∧ (admin_review_cb db "approve" conf_id none).2 = DecideOutcome.publishFailed
    ∧ db_get_confession (admin_review_cb db "approve" conf_id (some m)).1 conf_id
        = some { conf with is_approved := true, channel_msg_id := some m }
    ∧ (admin_review_cb db "approve" conf_id (some m)).2 = DecideOutcome.published m := by
  have hne : ¬ ("approve" : String) = "reject" := by decide
  refine ⟨?_, ?_, ?_, ?_⟩ <;>
    simp [admin_review_cb, hne, db_get_confession_set_published, h]

/-- Witness for C3 at the concrete pending store. -/
theorem admin_review_cb_publish_two_phase_witness :
    (admin_review_cb pendingDB "approve" 1 none).1 = pendingDB
    ∧ (admin_review_cb pendingDB "approve" 1 none).2 = DecideOutcome.publishFailed
    ∧ db_get_confession (admin_review_cb pendingDB "approve" 1 (some 100)).1 1
        = some ⟨1, "a", "hello", true, some 100⟩
    ∧ (admin_review_cb pendingDB "approve" 1 (some 100)).2 = DecideOutcome.published 100 :=
  admin_review_cb_publish_two_phase pendingDB 1 ⟨1, "a", "hello", false, none⟩ 100 (by decide)

/-- C1 counterexample: on the already-published store, a second approve does
not return AlreadyDecided and does not leave stored fields unchanged — it
overwrites the public-post reference 100 with 200. -/
theorem admin_review_cb_second_approve_mutates :
    db_get_confession publishedDB 1 = some ⟨1, "a", "hello", true, some 100⟩
    ∧ (admin_review_cb publishedDB "approve" 1 (some 200)).1 ≠ publishedDB
    ∧ db_get_confession (admin_review_cb publishedDB "approve" 1 (some 200)).1 1
        = some ⟨1, "a", "hello", true, some 200⟩
    ∧ (admin_review_cb publishedDB "approve" 1 (some 200)).2
        = DecideOutcome.published 200 :=
  ⟨by decide, by decide, by decide, by decide⟩

/-- C1 (amended): `admin_review_cb` has no decided-already guard — a second
approve on the same id is processed like the first, republishing and
overwriting the stored public-post reference with the new message id. -/
theorem admin_review_cb_replay_overwrites (db : DB) (conf_id m₁ m₂ : Nat)
    (conf : Confession) (h : db_get_confession db conf_id = some conf) :
    db_get_confession
        ((admin_review_cb ((admin_review_cb db "approve" conf_id (some m₁)).1)
          "approve" conf_id (some m₂)).1) conf_id
      = some { conf with is_approved := true, channel_msg_id := some m₂ }
    ∧ (admin_review_cb ((admin_review_cb db "approve" conf_id (some m₁)).1)
        "approve" conf_id (some m₂)).2 = DecideOutcome.published m₂ := by
  have hne : ¬ ("approve" : String) = "reject" := by decide
  constructor
  · simp [admin_review_cb, hne, db_get_confession_set_published, h]
  · simp [admin_review_cb, hne]

/-- Witness for the amended C1 at the concrete pending store. -/
theorem admin_review_cb_replay_overwrites_witness :
    db_get_confession
        ((admin_review_cb ((admin_review_cb pendingDB "approve" 1 (some 100)).1)
          "approve" 1 (some 200)).1) 1
      = some ⟨1, "a", "hello", true, some 200⟩
    ∧ (admin_review_cb ((admin_review_cb pendingDB "approve" 1 (some 100)).1)
        "approve" 1 (some 200)).2 = DecideOutcome.published 200 :=
  admin_review_cb_replay_overwrites pendingDB 1 100 200 ⟨1, "a", "hello", false, none⟩
    (by decide)

/-- C7: filing a report is rejected as duplicate exactly when a report row
for the (reporter, comment) pair already exists, whatever its reason/status,
and no new row is inserted; with no such row the report is accepted and one
row is appended. -/
theorem reason_cb_duplicate_guard (db : DB) (c : Nat) (u reason : String) :
    ((∃ r ∈ db.reports, r.comment_id = c ∧ r.user_id = u) →
        reason_cb db c u reason = (db, ReportOutcome.duplicate))
    ∧ ((∀ r ∈ db.reports, ¬(r.comment_id = c ∧ r.user_id = u)) →
        reason_cb db c u reason =
          ({ db with reports := db.reports ++ [⟨c, u, reason⟩] }, ReportOutcome.accepted)) := by
  constructor
  · intro hex
    simp [reason_cb, db_add_report, hex]
  · intro hall
    have hnex : ¬ ∃ r ∈ db.reports, r.comment_id = c ∧ r.user_id = u := by
      simpa using hall
    simp [reason_cb, db_add_report, hnex]

/-- Witness for C7: the reporter whose earlier report was dismissed is still
rejected as duplicate. -/
theorem reason_cb_duplicate_guard_witness :
    reason_cb engagedDB 1 "y" "Spam" = (engagedDB, ReportOutcome.duplicate) :=
  (reason_cb_duplicate_guard engagedDB 1 "y" "Spam").1 (by decide)

/-- C10: deleting a comment removes exactly the vote rows keyed by that
comment id; in particular every vote on one of its cascade-deleted replies
survives in the vote store. -/
theorem db_delete_comment_vote_frame (db : DB) (cid : Nat) :
    (∀ v : Vote, v ∈ (db_delete_comment db cid).votes
        ↔ v ∈ db.votes ∧ ¬ v.comment_id = cid)
    ∧ (∀ r ∈ db.comments, r.parent_comment_id = some cid → ¬ r.id = cid →
        ∀ v ∈ db.votes, v.comment_id = r.id → v ∈ (db_delete_comment db cid).votes) := by
  constructor
  · intro v
    simp [db_delete_comment, List.mem_filter]
  · intro r _ _ hne v hv hvc
    simp only [db_delete_comment, List.mem_filter, decide_eq_true_eq]
    exact ⟨hv, by simp [hvc, hne]⟩

/-- Witness for C10: the vote on reply 2 survives the deletion of its parent
comment 1. -/
theorem db_delete_comment_vote_frame_witness :
    (⟨"w", 2, 1⟩ : Vote) ∈ (db_delete_comment engagedDB 1).votes :=
  (db_delete_comment_vote_frame engagedDB 1).2 ⟨2, 1, some 1, "v", "vn", "r1"⟩
    (by decide) (by decide) (by decide) ⟨"w", 2, 1⟩ (by decide) (by decide)

/-- Digit accumulation distributes over append: the right part continues
from the value the left part reached. -/
theorem parseNatAux_append (a b : List Char) (acc : Nat) :
    parseNatAux (a ++ b) acc = (parseNatAux a acc).bind (fun x => parseNatAux b x) := by
  induction a generalizing acc with
  | nil => simp [parseNatAux]
  | cons c cs ih =>
    cases h : charDigit? c <;> simp [parseNatAux, h, ih]

/-- A rendered digit parses back to its value. -/
theorem charDigit?_digitChar (d : Nat) (h : d < 10) :
    charDigit? (digitChar d) = some d := by
  interval_cases d <;> decide

/-- With enough fuel, parsing the rendered digits of `n` recovers `n`. -/
theorem parseNatAux_natToDigitsAux (fuel : Nat) :
    ∀ n, n < fuel → parseNatAux (natToDigitsAux fuel n) 0 = some n := by
  induction fuel with
  | zero => omega
  | succ f ih =>
    intro n hn
    rw [natToDigitsAux]
    by_cases h10 : n < 10
    · rw [if_pos h10]
      simp [parseNatAux, charDigit?_digitChar n h10]
    · rw [if_neg h10, parseNatAux_append, ih (n / 10) (by omega)]
      simp [parseNatAux, charDigit?_digitChar (n % 10) (by omega)]
      omega

/-- The decimal rendering of a natural number is never the empty string. -/
theorem natToDigits_ne_nil (n : Nat) : natToDigits n ≠ [] := by
  unfold natToDigits natToDigitsAux
  by_cases h : n < 10 <;> simp [h]

/-- C9: the deep-link encoding round-trips — embedding any id in the public
post's `conf_<id>` start payload and decoding it through `cmd_start`'s
parser yields the same id. -/
theorem deep_link_payload_roundtrip (n : Nat) :
    cmd_start_payload (deep_link_payload n) = some n := by
  show parseNat (natToDigits n) = some n
  rw [parseNat, if_neg (natToDigits_ne_nil n)]
  exact parseNatAux_natToDigitsAux (n + 1) n (by omega)

/-- C8: for any requested page number — zero, negative, or past the end —
`browse_cb`'s pagination clamps the page into `[1, max 1 ⌈total/per_page⌉]`
(so `[1, 1]` when there are no top-level comments) and returns the
corresponding slice of the top-level comments, never an error. -/
theorem browse_page_clamps (db : DB) (conf_id : Nat) (page : Int) (per_page : Nat)
    (h : 1 ≤ per_page) :
    1 ≤ (browse_page db conf_id page per_page).page
    ∧ (browse_page db conf_id page per_page).page
        ≤ (browse_page db conf_id page per_page).total_pages
    ∧ (browse_page db conf_id page per_page).total_pages
        = max 1 (((browse_page db conf_id page per_page).total + per_page - 1) / per_page)
    ∧ ((browse_page db conf_id page per_page).total = 0
        → (browse_page db conf_id page per_page).total_pages = 1)
    ∧ (browse_page db conf_id page per_page).total
        = ((db_get_comments db conf_id).filter (fun c => c.parent_comment_id = none)).length
    ∧ (browse_page db conf_id page per_page).items
        = (((db_get_comments db conf_id).filter (fun c => c.parent_comment_id = none)).drop
            (((browse_page db conf_id page per_page).page - 1) * per_page)).take per_page := by
  have key : ∀ t : Nat, 1 ≤ t →
      1 ≤ (max 1 (min page (t : Int))).toNat ∧ (max 1 (min page (t : Int))).toNat ≤ t := by
    intro t ht
    constructor <;> omega
  refine ⟨?_, ?_, ?_, ?_, ?_, ?_⟩
  · exact (key _ (Nat.le_max_left 1 _)).1
  · exact (key _ (Nat.le_max_left 1 _)).2
  · rfl
  · intro h0
    simp only [browse_page] at h0 ⊢
    rw [h0, Nat.div_eq_of_lt (by omega)]
    omega
  · rfl
  · rfl

/-- Witness for C8: a negative page request on the 25-comment store is
clamped to page 1. -/
theorem browse_page_clamps_witness : 1 ≤ (browse_page manyCommentsDB 1 (-7) 10).page :=
  (browse_page_clamps manyCommentsDB 1 (-7) 10 (by decide)).1

/-- Inserting into the id-sorted list is a permutation of consing. -/
theorem insertById_perm (c : Comment) (l : List Comment) :
    List.Perm (insertById c l) (c :: l) := by
  induction l with
  | nil => exact List.Perm.refl _
  | cons d ds ih =>
    rw [insertById]
    by_cases h : c.id ≤ d.id
    · rw [if_pos h]
    · rw [if_neg h]
      exact (List.Perm.cons d ih).trans (List.Perm.swap c d ds)

/-- The id-sort is a permutation of its input. -/
theorem sortById_perm (l : List Comment) : List.Perm (sortById l) l := by
  induction l with
  | nil => exact List.Perm.refl _
  | cons c cs ih => exact (insertById_perm c (sortById cs)).trans (ih.cons c)

/-- C6: deleting a comment through the moderator flow removes it and its
direct replies from the comment store, removes its vote rows, marks every
report targeting it resolved, re-renders the public post's counter for the
owning submission from the post-deletion store (when the submission carries
a public-post reference), and leaves the comment absent from every
subsequent `browse_cb` page of that submission. -/
theorem admin_delete_comment_cb_cascades (db : DB) (cid conf_id : Nat) :
    (∀ c ∈ (admin_delete_comment_cb db cid conf_id).1.comments,
        ¬ c.id = cid ∧ ¬ c.parent_comment_id = some cid)
    ∧ (∀ v ∈ (admin_delete_comment_cb db cid conf_id).1.votes, ¬ v.comment_id = cid)
    ∧ (∀ r ∈ (admin_delete_comment_cb db cid conf_id).1.reports,
        r.comment_id = cid → r.reason = "resolved")
    ∧ (∀ conf : Confession, ∀ m : Nat, db_get_confession db conf_id = some conf →
        conf.channel_msg_id = some m →
        (admin_delete_comment_cb db cid conf_id).2
          = some (db_count_comments (admin_delete_comment_cb db cid conf_id).1 conf_id))
    ∧ (∀ page : Int, ∀ per_page : Nat,
        ∀ c ∈ (browse_page (admin_delete_comment_cb db cid conf_id).1 conf_id
          page per_page).items, ¬ c.id = cid) := by
  have hA : ∀ c ∈ (admin_delete_comment_cb db cid conf_id).1.comments,
      ¬ c.id = cid ∧ ¬ c.parent_comment_id = some cid := by
    intro c hc
    simp only [admin_delete_comment_cb, db_delete_comment, List.mem_filter,
      decide_eq_true_eq] at hc
    exact ⟨hc.1.2, hc.2⟩
  refine ⟨hA, ?_, ?_, ?_, ?_⟩
  · intro v hv
    simp only [admin_delete_comment_cb, db_delete_comment, List.mem_filter,
      decide_eq_true_eq] at hv
    exact hv.2
  · intro r hr hcid
    simp only [admin_delete_comment_cb, db_delete_comment, List.mem_map] at hr
    obtain ⟨a, _, hfa⟩ := hr
    by_cases h : a.comment_id = cid
    · rw [if_pos h] at hfa
      rw [← hfa]
    · rw [if_neg h] at hfa
      rw [← hfa] at hcid
      exact absurd hcid h
  · intro conf m h1 h2
    have h1' : db_get_confession (db_delete_comment db cid) conf_id = some conf := h1
    simp [admin_delete_comment_cb, sync_count, h1', h2]
  · intro page per_page c hc
    have h1 := List.mem_of_mem_take hc
    have h2 := List.mem_of_mem_drop h1
    have h3 := (List.mem_filter.mp h2).1
    have h4 := ((sortById_perm _).mem_iff).mp h3
    exact (hA c (List.mem_filter.mp h4).1).1

/-- Witness for C6 on the concrete engaged store: deleting comment 1
resolves its reports and drops the button count to 0 (only the reply row
was counted before its cascade deletion). -/
theorem admin_delete_comment_cb_cascades_witness :
    (admin_delete_comment_cb engagedDB 1 1).2
      = some (db_count_comments (admin_delete_comment_cb engagedDB 1 1).1 1) :=
  (admin_delete_comment_cb_cascades engagedDB 1 1).2.2.2.1
    ⟨1, "a", "t", true, some 50⟩ 50 (by decide) (by decide)

/-- Upserting a vote preserves the one-row-per-key invariant: an existing
key is updated in place, a fresh key appends one row no existing row
shares a key with. -/
theorem vote_key_unique_upsert (db : DB) (u : String) (c : Nat) (w : Int)
    (h : vote_key_unique db.votes) :
    vote_key_unique (db_upsert_vote db u c w).votes := by
  unfold vote_key_unique db_upsert_vote at *
  split
  case isTrue hany =>
    rw [List.pairwise_map]
    refine h.imp ?_
    intro a b hab hcontra
    apply hab
    have hfa : ∀ v : Vote,
        (if v.user_id = u ∧ v.comment_id = c then { v with vote := w } else v).user_id
            = v.user_id
        ∧ (if v.user_id = u ∧ v.comment_id = c then { v with vote := w } else v).comment_id
            = v.comment_id := by
      intro v
      split <;> exact ⟨rfl, rfl⟩
    rw [(hfa a).1, (hfa a).2, (hfa b).1, (hfa b).2] at hcontra
    exact hcontra
  case isFalse hany =>
    rw [List.pairwise_append]
    refine ⟨h, List.pairwise_singleton _ _, ?_⟩
    intro a ha b hb
    rw [List.mem_singleton] at hb
    subst hb
    intro hcontra
    apply hany
    simp only [List.any_eq_true, decide_eq_true_eq]
    exact ⟨a, ha, hcontra.1, hcontra.2⟩

/-- Deleting a voter's row preserves the one-row-per-key invariant. -/
theorem vote_key_unique_delete (db : DB) (u : String) (c : Nat)
    (h : vote_key_unique db.votes) :
    vote_key_unique (db_delete_vote db u c).votes :=
  List.Pairwise.sublist (List.filter_sublist _) h

/-- One `vote_cb` call preserves the one-row-per-key invariant. -/
theorem vote_key_unique_vote_cb (db : DB) (u : String) (c : Nat) (d : String)
    (h : vote_key_unique db.votes) :
    vote_key_unique (vote_cb db u c d).votes := by
  simp only [vote_cb]
  cases hE : db.votes.filter (fun v => v.comment_id = c ∧ v.user_id = u) with
  | nil => exact vote_key_unique_upsert db u c _ h
  | cons cur t =>
    show vote_key_unique
      (if cur.vote = (if d = "up" then (1 : Int) else -1) then db_delete_vote db u c
       else db_upsert_vote db u c (if d = "up" then (1 : Int) else -1)).votes
    by_cases hv : cur.vote = (if d = "up" then (1 : Int) else -1)
    · rw [if_pos hv]
      exact vote_key_unique_delete db u c h
    · rw [if_neg hv]
      exact vote_key_unique_upsert db u c _ h

/-- C4: after any finite sequence of `vote_cb` events starting from a store
satisfying the single-row invariant, at most one vote row exists per
(voter, comment) pair. -/
theorem vote_cb_seq_key_unique (db : DB) (ops : List (String × Nat × String))
    (h : vote_key_unique db.votes) :
    vote_key_unique (vote_cb_seq db ops).votes := by
  induction ops generalizing db with
  | nil => exact h
  | cons op rest ih =>
    exact ih (vote_cb db op.1 op.2.1 op.2.2) (vote_key_unique_vote_cb db op.1 op.2.1 op.2.2 h)

/-- Witness for C4: a concrete three-event vote sequence from the empty
vote store keeps the invariant. -/
theorem vote_cb_seq_key_unique_witness :
    vote_key_unique (vote_cb_seq pendingDB [("u", 1, "up"), ("u", 1, "dw"), ("v", 1, "up")]).votes :=
  vote_cb_seq_key_unique pendingDB [("u", 1, "up"), ("u", 1, "dw"), ("v", 1, "up")]
    List.Pairwise.nil

/-- When the voter has no row on the comment, `vote_cb` appends one with
the wanted direction. -/
theorem vote_cb_votes_of_none (db : DB) (u : String) (c : Nat) (d : String)
    (hE : db.votes.filter (fun v => v.comment_id = c ∧ v.user_id = u) = []) :
    (vote_cb db u c d).votes
      = db.votes ++ [⟨u, c, if d = "up" then (1 : Int) else -1⟩] := by
  have hany : db.votes.any (fun v => v.user_id = u ∧ v.comment_id = c) = false := by
    rw [List.any_eq_false]
    intro v hv hk
    rw [decide_eq_true_eq] at hk
    have hkey : v ∈ db.votes.filter (fun v => v.comment_id = c ∧ v.user_id = u) := by
      rw [List.mem_filter]
      exact ⟨hv, by simp [hk.1, hk.2]⟩
    rw [hE] at hkey
    exact absurd hkey (List.not_mem_nil v)
  simp only [vote_cb]
  rw [hE]
  show (db_upsert_vote db u c _).votes = _
  unfold db_upsert_vote
  rw [if_neg (by rw [hany]; exact Bool.false_ne_true)]

/-- When the voter's first matching row already carries the wanted
direction, `vote_cb` deletes the voter's rows on the comment. -/
theorem vote_cb_votes_of_same (db : DB) (u : String) (c : Nat) (d : String)
    (cur : Vote) (t : List Vote)
    (hE : db.votes.filter (fun v => v.comment_id = c ∧ v.user_id = u) = cur :: t)
    (hv : cur.vote = (if d = "up" then (1 : Int) else -1)) :
    (vote_cb db u c d).votes
      = db.votes.filter (fun v => ¬(v.user_id = u ∧ v.comment_id = c)) := by
  simp only [vote_cb]
  rw [hE]
  show (if cur.vote = (if d = "up" then (1 : Int) else -1) then db_delete_vote db u c
        else db_upsert_vote db u c (if d = "up" then (1 : Int) else -1)).votes = _
  rw [if_pos hv]
  rfl

/-- Vote counts only depend on the vote table up to permutation. -/
theorem db_get_vote_counts_perm (db1 db2 : DB) (h : List.Perm db1.votes db2.votes)
    (x : Nat) : db_get_vote_counts db1 x = db_get_vote_counts db2 x := by
  unfold db_get_vote_counts
  rw [List.Perm.length_eq (h.filter _), List.Perm.length_eq (h.filter _)]

/-- Casting the same direction twice permutes the vote store back to where
it started, provided rows are key-unique and the voter's existing row (if
any) already has that direction. -/
theorem vote_cb_twice_perm (db : DB) (u : String) (c : Nat) (d : String)
    (h1 : vote_key_unique db.votes)
    (h2 : ∀ v ∈ db.votes, v.user_id = u → v.comment_id = c →
        v.vote = (if d = "up" then (1 : Int) else -1)) :
    List.Perm (vote_cb (vote_cb db u c d) u c d).votes db.votes := by
  cases hE : db.votes.filter (fun v => v.comment_id = c ∧ v.user_id = u) with
  | nil =>
    have hnokey : ∀ v ∈ db.votes, ¬(v.comment_id = c ∧ v.user_id = u) := by
      intro v hv hk
      have hkey : v ∈ db.votes.filter (fun v => v.comment_id = c ∧ v.user_id = u) := by
        rw [List.mem_filter]
        exact ⟨hv, by simp [hk.1, hk.2]⟩
      rw [hE] at hkey
      exact absurd hkey (List.not_mem_nil v)
    have hstep1 := vote_cb_votes_of_none db u c d hE
    have hE2 : (vote_cb db u c d).votes.filter
        (fun v => v.comment_id = c ∧ v.user_id = u)
        = [⟨u, c, if d = "up" then (1 : Int) else -1⟩] := by
      rw [hstep1, List.filter_append, hE]
      simp
    have hstep2 := vote_cb_votes_of_same (vote_cb db u c d) u c d _ [] hE2 rfl
    rw [hstep2, hstep1, List.filter_append]
    have hkeep : db.votes.filter (fun v => ¬(v.user_id = u ∧ v.comment_id = c))
        = db.votes := by
      apply List.filter_eq_self.mpr
      intro v hv
      simp only [decide_eq_true_eq]
      intro hk
      exact hnokey v hv ⟨hk.2, hk.1⟩
    have hdrop : List.filter (fun v => ¬(v.user_id = u ∧ v.comment_id = c))
        [(⟨u, c, if d = "up" then (1 : Int) else -1⟩ : Vote)] = [] := by
      simp
    rw [hkeep, hdrop, List.append_nil]
  | cons cur t =>
    have hcur_mem : cur ∈ db.votes.filter (fun v => v.comment_id = c ∧ v.user_id = u) := by
      rw [hE]
      exact List.mem_cons_self cur t
    have hcur_key : cur.comment_id = c ∧ cur.user_id = u := by
      have := (List.mem_filter.mp hcur_mem).2
      rwa [decide_eq_true_eq] at this
    have hcur_votes : cur ∈ db.votes := (List.mem_filter.mp hcur_mem).1
    have hcur_vote : cur.vote = (if d = "up" then (1 : Int) else -1) :=
      h2 cur hcur_votes hcur_key.2 hcur_key.1
    have ht : t = [] := by
      cases t with
      | nil => rfl
      | cons b bs =>
        have hpair : List.Pairwise
            (fun a b : Vote => ¬(a.user_id = b.user_id ∧ a.comment_id = b.comment_id))
            (cur :: b :: bs) := by
          rw [← hE]
          exact List.Pairwise.sublist (List.filter_sublist _) h1
        have hb_mem : b ∈ db.votes.filter (fun v => v.comment_id = c ∧ v.user_id = u) := by
          rw [hE]
          exact List.mem_cons_of_mem cur (List.mem_cons_self b bs)
        have hb_key : b.comment_id = c ∧ b.user_id = u := by
          have := (List.mem_filter.mp hb_mem).2
          rwa [decide_eq_true_eq] at this
        have := (List.pairwise_cons.mp hpair).1 b (List.mem_cons_self b bs)
        exact absurd ⟨hcur_key.2.trans hb_key.2.symm, hcur_key.1.trans hb_key.1.symm⟩ this
    have hstep1 := vote_cb_votes_of_same db u c d cur t hE hcur_vote
    have hE2 : (vote_cb db u c d).votes.filter
        (fun v => v.comment_id = c ∧ v.user_id = u) = [] := by
      rw [hstep1]
      rw [List.filter_eq_nil_iff]
      intro v hv
      have hv' := (List.mem_filter.mp hv).2
      rw [decide_eq_true_eq] at hv'
      simp only [decide_eq_true_eq]
      intro hk
      exact hv' ⟨hk.2, hk.1⟩
    have hstep2 := vote_cb_votes_of_none (vote_cb db u c d) u c d hE2
    rw [hstep2, hstep1]
    have hcur_eq : cur = ⟨u, c, if d = "up" then (1 : Int) else -1⟩ := by
      cases cur
      simp only [Vote.mk.injEq]
      exact ⟨hcur_key.2, hcur_key.1, hcur_vote⟩
    have hk1 : db.votes.filter (fun v => v.comment_id = c ∧ v.user_id = u) = [cur] := by
      rw [hE, ht]
    have hswap : db.votes.filter (fun v => v.user_id = u ∧ v.comment_id = c)
        = db.votes.filter (fun v => v.comment_id = c ∧ v.user_id = u) :=
      List.filter_congr (fun v _ =>
        decide_eq_decide.mpr ⟨fun hk => ⟨hk.2, hk.1⟩, fun hk => ⟨hk.2, hk.1⟩⟩)
    have e1 : [(⟨u, c, if d = "up" then (1 : Int) else -1⟩ : Vote)]
        = db.votes.filter (fun v => v.user_id = u ∧ v.comment_id = c) := by
      rw [hswap, hk1, hcur_eq]
    rw [e1]
    refine List.Perm.trans List.perm_append_comm ?_
    have hco : List.filter (fun v : Vote => ¬(v.user_id = u ∧ v.comment_id = c)) db.votes
        = List.filter (fun v : Vote =>
            !(decide (v.user_id = u ∧ v.comment_id = c))) db.votes :=
      List.filter_congr (fun v _ => by rw [decide_not])
    rw [hco]
    exact List.filter_append_perm _ db.votes

/-- C5 (amended): casting the same direction twice in succession leaves
`likeCount` and `dislikeCount` unchanged whenever the vote store is
key-unique and the voter's prior row on the comment, if any, already has
that direction; with a prior opposite-direction row the pair of casts
instead removes that row (see the counterexample). -/
theorem vote_cb_same_direction_twice_counts (db : DB) (u : String) (c : Nat) (d : String)
    (h1 : vote_key_unique db.votes)
    (h2 : ∀ v ∈ db.votes, v.user_id = u → v.comment_id = c →
        v.vote = (if d = "up" then (1 : Int) else -1)) :
    db_get_vote_counts (vote_cb (vote_cb db u c d) u c d) c = db_get_vote_counts db c :=
  db_get_vote_counts_perm _ db (vote_cb_twice_perm db u c d h1 h2) c

/-- Witness for the amended C5: double-up on the engaged store (voter "w"
already likes comment 1) restores the counts. -/
theorem vote_cb_same_direction_twice_counts_witness :
    db_get_vote_counts (vote_cb (vote_cb engagedDB "w" 1 "up") "w" 1 "up") 1
      = db_get_vote_counts engagedDB 1 :=
  vote_cb_same_direction_twice_counts engagedDB "w" 1 "up"
    (by unfold vote_key_unique; decide) (by decide)

/-- C5 counterexample: starting from the store where voter "u" dislikes
comment 1, cast(up) then cast(up) does NOT leave the counts unchanged —
the dislike disappears, (0, 1) becomes (0, 0). -/
theorem vote_cb_double_up_after_dislike_changes_counts :
    db_get_vote_counts (vote_cb (vote_cb dislikeDB "u" 1 "up") "u" 1 "up") 1
      ≠ db_get_vote_counts dislikeDB 1 := by decide

/-- The comment table of a confession splits into its top-level comments
and its replies: the full count is the sum of the two. -/
theorem db_count_comments_split (db : DB) (conf_id : Nat) :
    db_count_comments db conf_id
      = top_level_count db conf_id + reply_count db conf_id := by
  unfold db_count_comments top_level_count reply_count db_get_comments
  have hperm := sortById_perm (db.comments.filter (fun c => c.confession_id = conf_id))
  have hco : List.filter (fun c : Comment => ¬ c.parent_comment_id = none)
        (sortById (db.comments.filter (fun c => c.confession_id = conf_id)))
      = List.filter (fun c : Comment => !(decide (c.parent_comment_id = none)))
        (sortById (db.comments.filter (fun c => c.confession_id = conf_id))) :=
    List.filter_congr (fun c _ => by rw [decide_not])
  rw [hco]
  have hsum := (List.filter_append_perm (fun c : Comment => decide (c.parent_comment_id = none))
    (sortById (db.comments.filter (fun c => c.confession_id = conf_id)))).length_eq
  rw [List.length_append] at hsum
  rw [hsum, hperm.length_eq]

/-- C2 (amended): after a comment is created through the comment flow, or
deleted through the moderator flow, the count re-rendered on the public
post's button equals the TOTAL number of the submission's comments —
top-level comments plus replies — not the number of top-level comments
alone. -/
theorem sync_count_displays_total (db : DB) (conf_id new_id cid : Nat)
    (uid un text : String) (conf : Confession) (m : Nat)
    (h1 : db_get_confession db conf_id = some conf)
    (h2 : conf.channel_msg_id = some m) :
    (handle_message_comment db conf_id new_id uid un text).2
        = some (top_level_count (handle_message_comment db conf_id new_id uid un text).1 conf_id
            + reply_count (handle_message_comment db conf_id new_id uid un text).1 conf_id)
    ∧ (admin_delete_comment_cb db cid conf_id).2
        = some (top_level_count (admin_delete_comment_cb db cid conf_id).1 conf_id
            + reply_count (admin_delete_comment_cb db cid conf_id).1 conf_id) := by
  constructor
  · have h1' : db_get_confession (db_add_comment db new_id conf_id uid un text) conf_id
        = some conf := h1
    simp [handle_message_comment, sync_count, h1', h2, ← db_count_comments_split]
  · have h1' : db_get_confession (db_delete_comment db cid) conf_id = some conf := h1
    simp [admin_delete_comment_cb, sync_count, h1', h2, ← db_count_comments_split]

/-- Witness for the amended C2 on the engaged store: the count displayed
after adding a third comment is the total (3 = 2 top-level + 1 reply). -/
theorem sync_count_displays_total_witness :
    (handle_message_comment engagedDB 1 3 "w" "wn" "c2").2
      = some (top_level_count (handle_message_comment engagedDB 1 3 "w" "wn" "c2").1 1
          + reply_count (handle_message_comment engagedDB 1 3 "w" "wn" "c2").1 1) :=
  (sync_count_displays_total engagedDB 1 3 1 "w" "wn" "c2" ⟨1, "a", "t", true, some 50⟩ 50
    (by decide) (by decide)).1

/-- C2 counterexample: on the engaged store (one top-level comment, one
reply), adding a comment re-renders the button with 3, but the number of
top-level comments is 2 — the displayed count is NOT the top-level count. -/
theorem handle_message_count_not_top_level :
    (handle_message_comment engagedDB 1 3 "w" "wn" "c2").2
      ≠ some (top_level_count (handle_message_comment engagedDB 1 3 "w" "wn" "c2").1 1) := by
  decide
